import Mathlib

/-!
Shallow embedding of the YATAV trainer backend process supervisor
(class `BackendManager` in `src/electron/main.js`) and of the frontend
realtime session channel (`src/frontend/src/services/api.ts`,
`src/frontend/src/hooks/useApi.ts`, `App.tsx` / the unnamed component file),
together with theorems checking the specification claims about them.

Timing is modelled discretely: the health-probe poll loop is indexed by the
poll tick (one tick per 1000 ms poll interval), and `stop()` resolution is a
time in milliseconds.
-/

namespace Yatav

/-- State of a `BackendManager` instance (main.js lines 78-86): the fields set
by the constructor, plus bookkeeping the embedding makes explicit:
`liveChildren` counts spawned children that have not yet exited, and
`pendingRetry` records that a `setTimeout(() => this.start(), 3000)` retry
timer is pending (the code keeps no handle to that timer). -/
structure BackendManager where
  process : Option Nat
  isRunning : Bool
  retryCount : Nat
  maxRetries : Nat
  liveChildren : Nat
  pendingRetry : Bool
deriving Repr, DecidableEq

/-- The constructor (main.js lines 79-86): no process, not running,
`retryCount = 0`, `maxRetries = 5`. -/
def BackendManager.init : BackendManager :=
  { process := none, isRunning := false, retryCount := 0, maxRetries := 5,
    liveChildren := 0, pendingRetry := false }

/-- The synchronous phase of `start()` (main.js lines 88-150): line 89 returns
early when `isRunning` is true (resolving without spawning); otherwise the
child is spawned and assigned to `this.process` (line 146). Returns the new
state and whether a child was spawned. `isRunning` is set to true only later,
after the health probe succeeds (line 174), so during the whole probe wait the
state still has `isRunning = false`. -/
def startSyncPhase (m : BackendManager) (pid : Nat) : BackendManager × Bool :=
  if m.isRunning then (m, false)
  else ({ m with process := some pid, liveChildren := m.liveChildren + 1 }, true)

/-- Fixed retry delay passed to `setTimeout` in `retry()` (main.js line 226). -/
def retryDelayMs : Nat := 3000

/-- Overall health-probe timeout of `waitForBackend` (main.js line 183). -/
def healthTimeoutMs : Nat := 30000

/-- Poll interval of the `waitForBackend` loop (main.js line 193). -/
def pollIntervalMs : Nat := 1000

/-- Number of poll ticks that fit in the timeout window. -/
def maxPolls : Nat := healthTimeoutMs / pollIntervalMs

/-- The polling loop of `waitForBackend` (main.js lines 186-194): at each tick
issue `GET /health`; `response.ok` (a 2xx status) returns success, any failure
is swallowed and the loop sleeps one poll interval, while the elapsed time is
below the timeout. `probe k` tells whether the probe at tick `k` observes a
2xx response. Returns the tick of the first success, or `none` when the
timeout window is exhausted (the `throw` at line 196). -/
def waitLoop (probe : Nat → Bool) : Nat → Nat → Option Nat
  | _, 0 => none
  | k, fuel + 1 => if probe k then some k else waitLoop probe (k + 1) fuel

/-- `waitForBackend` (main.js lines 183-197) with its default 30000 ms
timeout and 1000 ms poll interval: up to `maxPolls = 30` probes. -/
def waitForBackend (probe : Nat → Bool) : Option Nat :=
  waitLoop probe 0 maxPolls

/-- The exit handler installed by `start()` (main.js lines 165-171) together
with `retry()` (lines 223-227): on child exit, `isRunning := false`; when the
exit code is nonzero and `retryCount < maxRetries`, `retry()` increments
`retryCount` and schedules one `start()` after `retryDelayMs`. Returns the
new state and `some delay` when exactly one retry was scheduled. -/
def onExit (m : BackendManager) (code : Int) : BackendManager × Option Nat :=
  if code ≠ 0 ∧ m.retryCount < m.maxRetries then
    ({ m with isRunning := false, liveChildren := m.liveChildren - 1,
              retryCount := m.retryCount + 1, pendingRetry := true },
     some retryDelayMs)
  else
    ({ m with isRunning := false, liveChildren := m.liveChildren - 1 }, none)

/-- Folding the exit handler over a sequence of exit codes. -/
def runExits (m : BackendManager) (codes : List Int) : BackendManager :=
  codes.foldl (fun s c => (onExit s c).1) m

/-- The tail of `start()` after the spawn (main.js lines 173-180): `await
waitForBackend()`; on success `isRunning := true` (line 174) and `start()`
resolves; on probe timeout the thrown error propagates (line 179), `start()`
rejects, and no state is touched — in particular the spawned process is left
running and `retryCount` is not changed anywhere on this path. Returns the
new state and whether `start()` resolved. -/
def startResume (m : BackendManager) (probe : Nat → Bool) : BackendManager × Bool :=
  match waitForBackend probe with
  | some _ => ({ m with isRunning := true }, true)
  | none => (m, false)

/-- Kill deadline of `stop()` (main.js line 219). -/
def killDeadlineMs : Nat := 5000

/-- Resolution time of `stop()` (main.js lines 199-221): line 200 resolves
immediately when no process is tracked; otherwise the exit listener (lines
203-206) resolves when the child exits, and the `setTimeout` at lines 214-219
force-kills with SIGKILL and calls `resolve()` unconditionally at the
deadline, so resolution happens at the earlier of the two. `exitAt = none`
models a child that never exits on its own (it ignores the graceful
termination signal). -/
def stopResolveMs (m : BackendManager) (exitAt : Option Nat) : Nat :=
  match m.process with
  | none => 0
  | some _ =>
    match exitAt with
    | some t => min t killDeadlineMs
    | none => killDeadlineMs

/-- State effect of `stop()` (main.js lines 199-221): nothing when no process
is tracked; otherwise the exit listener sets `isRunning := false`. No field
related to the retry timer is touched: the code keeps no handle to the
`setTimeout` created in `retry()`, so `pendingRetry` is left as it was. -/
def stopState (m : BackendManager) : BackendManager :=
  match m.process with
  | none => m
  | some _ => { m with isRunning := false }

/-- The pending retry timer fires (main.js line 226): the timer is consumed
and `this.start()` runs its synchronous phase. -/
def retryFire (m : BackendManager) (pid : Nat) : BackendManager × Bool :=
  startSyncPhase { m with pendingRetry := false } pid

/-- `handleBackendError` (main.js lines 229-236): sends a `backend-error`
message to the renderer with `retrying = retryCount < maxRetries`; it changes
no supervisor state and schedules nothing. Returns the state unchanged and
the `retrying` flag it reported. -/
def handleBackendError (m : BackendManager) : BackendManager × Bool :=
  (m, decide (m.retryCount < m.maxRetries))

/-- Errors `start()` can reject with. The embedded code produces only
`healthTimeout` (the throw at main.js line 196); `spawnFailure` is the
distinct spawn-time error named by the specification taxonomy, which the code
never throws — the spawn `error` event is routed to `handleBackendError`
(line 162), which swallows it. -/
inductive StartError where
  | healthTimeout
  | spawnFailure
deriving Repr, DecidableEq

/-- Outcome of a `start()` invocation. -/
inductive StartOutcome where
  | resolved
  | rejected (e : StartError)
deriving Repr, DecidableEq

/-- `start()` when the backend executable path does not exist: after the early
return check, `spawn` still assigns `this.process` (line 146), the child never
starts, and Node emits an `error` event (no `exit` event with a code fires on
a spawn failure, so the retry-scheduling exit handler never runs). The
`error` handler (lines 160-163) only calls `handleBackendError`. Control
then reaches `await waitForBackend()` whose probes all fail against the dead
port, so after the timeout window `start()` rejects with the health-timeout
error. Returns (state, outcome, whether a retry was scheduled). -/
def startSpawnMissing (m : BackendManager) (pid : Nat) :
    BackendManager × StartOutcome × Bool :=
  if m.isRunning then (m, StartOutcome.resolved, false)
  else
    let m1 := (handleBackendError { m with process := some pid }).1
    match waitForBackend (fun _ => false) with
    | some _ => ({ m1 with isRunning := true }, StartOutcome.resolved, false)
    | none => (m1, StartOutcome.rejected StartError.healthTimeout, false)

/-- The supervisor events that mutate a `BackendManager` over its lifetime. -/
inductive SupEvent where
  | spawnChild (pid : Nat)
  | healthResult (ok : Bool)
  | childExit (code : Int)
  | stopCall
  | retryTimer (pid : Nat)
deriving Repr, DecidableEq

/-- One supervisor event applied to the state: the synchronous phase of
`start()`, the resumption after the health probe (line 174 on success,
nothing on timeout), the exit handler, `stop()`, or a firing retry timer. -/
def stepSup (m : BackendManager) : SupEvent → BackendManager
  | SupEvent.spawnChild pid => (startSyncPhase m pid).1
  | SupEvent.healthResult ok => if ok then { m with isRunning := true } else m
  | SupEvent.childExit code => (onExit m code).1
  | SupEvent.stopCall => stopState m
  | SupEvent.retryTimer pid => (retryFire m pid).1

/-- A whole event trace applied to the state. -/
def runSup (m : BackendManager) (events : List SupEvent) : BackendManager :=
  events.foldl stepSup m

/-! ## Session channel: inbound dispatch (useApi.ts, `useWebSocket`) -/

/-- The state the `useWebSocket` hook keeps (useApi.ts lines 266-268):
the `connected` flag and the accumulated message log. The frame type is a
parameter; `parse` below stands for `JSON.parse` on the raw frame text. -/
structure ChannelHookState (Frame : Type) where
  connected : Bool
  messages : List Frame
deriving Repr, DecidableEq

/-- The `onmessage` handler (useApi.ts lines 285-292): parse the raw data; on
success append the frame to the log (`setMessages(prev => [...prev, message])`);
on failure log the error and drop the frame. The `connected` flag is not
touched on either path. -/
def onmessage {Frame : Type} (parse : String → Option Frame)
    (s : ChannelHookState Frame) (raw : String) : ChannelHookState Frame :=
  match parse raw with
  | some msg => { s with messages := s.messages ++ [msg] }
  | none => s

/-- Delivering a sequence of raw frames to the `onmessage` handler in their
arrival order. -/
def dispatchFrames {Frame : Type} (parse : String → Option Frame)
    (s : ChannelHookState Frame) (raws : List String) : ChannelHookState Frame :=
  raws.foldl (onmessage parse) s

/-! ## Session channel: open handlers and the auth frame -/

/-- Outbound frames observable on the wire. -/
inductive OutFrame where
  | auth (token : String)
  | other (payload : String)
deriving Repr, DecidableEq

/-- The handlers the code assigns to the socket `onopen` property:
`apiAuthHandler` is installed by `ApiService.createWebSocket` (api.ts lines
426-432) and sends `{type: "auth", token}` when a token is available;
`hookOpenHandler` is assigned by the `useWebSocket` effect (useApi.ts lines
275-278) and only sets the `connected` state, sending nothing. -/
inductive OpenHandler where
  | apiAuthHandler (token : Option String)
  | hookOpenHandler
deriving Repr, DecidableEq

/-- A socket as the embedding sees it: the currently assigned `onopen`
handler (assignment replaces any previous handler — `onopen` is a property,
not a listener list) and the frames sent so far. -/
structure WSocket where
  onopen : OpenHandler
  sent : List OutFrame
deriving Repr, DecidableEq

/-- `ApiService.createWebSocket` (api.ts lines 420-443): builds the socket and
assigns the auth-sending `onopen` handler. -/
def createWebSocket (token : Option String) : WSocket :=
  { onopen := OpenHandler.apiAuthHandler token, sent := [] }

/-- The `useWebSocket` effect body (useApi.ts lines 270-283): it runs
synchronously after `createWebSocket` returns and reassigns `websocket.onopen`
before the connection can report established (the open event only fires in a
later event-loop task), replacing the auth-sending handler. -/
def useWebSocketSetup (ws : WSocket) : WSocket :=
  { ws with onopen := OpenHandler.hookOpenHandler }

/-- The transport reports established: the handler currently assigned to
`onopen` runs. -/
def fireOpen (ws : WSocket) : WSocket :=
  match ws.onopen with
  | OpenHandler.apiAuthHandler (some t) => { ws with sent := ws.sent ++ [OutFrame.auth t] }
  | OpenHandler.apiAuthHandler none => ws
  | OpenHandler.hookOpenHandler => ws

/-! ## Session creation (useApi.ts `useSessionManager`, App.tsx flows) -/

/-- The state of one `useSessionManager` instance (useApi.ts lines 222-223)
plus a count of session-creation REST calls it has issued. -/
structure SessionMgr where
  creating : Bool
  callsIssued : Nat
deriving Repr, DecidableEq

/-- One invocation of `createSession` (useApi.ts lines 225-238): it sets
`creating` to true and issues the `apiService.createSession` call
unconditionally — the `creating` flag is never consulted before calling. -/
def createSessionInvoke (s : SessionMgr) : SessionMgr :=
  { s with creating := true, callsIssued := s.callsIssued + 1 }

/-- The `TrainingSession` mount effect (the unnamed component file, lines
659-671): when the local `sessionId` state is still `null` it calls
`sessionManager.createSession` once. A fresh mount always starts with
`sessionId = null`, even when `handleSelectCharacter` (lines 450-463) already
created a session before navigating to the session view. -/
def trainingSessionMount (s : SessionMgr) (sessionId : Option String) : SessionMgr :=
  match sessionId with
  | none => createSessionInvoke s
  | some _ => s

/-! # Helper lemmas -/

theorem waitLoop_isSome_iff (probe : Nat → Bool) :
    ∀ (fuel k : Nat), (waitLoop probe k fuel).isSome = true ↔
      ∃ j, k ≤ j ∧ j < k + fuel ∧ probe j = true := by
  intro fuel
  induction fuel with
  | zero =>
    intro k
    simp only [waitLoop, Option.isSome_none, Bool.false_eq_true, false_iff]
    rintro ⟨j, hkj, hjk, _⟩
    omega
  | succ n ih =>
    intro k
    by_cases h : probe k = true
    · simp only [waitLoop, h, if_true, Option.isSome_some, true_iff]
      exact ⟨k, Nat.le_refl k, by omega, h⟩
    · simp only [waitLoop, h, if_false, Bool.false_eq_true, ih (k + 1)]
      constructor
      · rintro ⟨j, h1, h2, h3⟩
        exact ⟨j, by omega, by omega, h3⟩
      · rintro ⟨j, h1, h2, h3⟩
        have hne : j ≠ k := by
          intro he
          rw [he] at h3
          exact h h3
        exact ⟨j, by omega, by omega, h3⟩

theorem waitForBackend_isSome_iff (probe : Nat → Bool) :
    (waitForBackend probe).isSome = true ↔ ∃ k, k < maxPolls ∧ probe k = true := by
  unfold waitForBackend
  rw [waitLoop_isSome_iff probe maxPolls 0]
  constructor
  · rintro ⟨j, _, hj, hp⟩
    exact ⟨j, by omega, hp⟩
  · rintro ⟨j, hj, hp⟩
    exact ⟨j, by omega, by omega, hp⟩

theorem startResume_resolved_iff (m : BackendManager) (probe : Nat → Bool) :
    (startResume m probe).2 = (waitForBackend probe).isSome := by
  unfold startResume
  rcases waitForBackend probe with _ | j <;> rfl

theorem waitForBackend_all_fail : waitForBackend (fun _ => false) = none := by
  decide

theorem dispatchFrames_messages {Frame : Type} (parse : String → Option Frame) :
    ∀ (raws : List String) (s : ChannelHookState Frame),
      (dispatchFrames parse s raws).messages = s.messages ++ raws.filterMap parse := by
  intro raws
  induction raws with
  | nil =>
    intro s
    simp [dispatchFrames]
  | cons r rs ih =>
    intro s
    have hd : dispatchFrames parse s (r :: rs) = dispatchFrames parse (onmessage parse s r) rs := rfl
    rw [hd, ih]
    rcases hp : parse r with _ | v
    · simp [onmessage, hp]
    · simp [onmessage, hp]

theorem dispatchFrames_connected {Frame : Type} (parse : String → Option Frame) :
    ∀ (raws : List String) (s : ChannelHookState Frame),
      (dispatchFrames parse s raws).connected = s.connected := by
  intro raws
  induction raws with
  | nil =>
    intro s
    rfl
  | cons r rs ih =>
    intro s
    have hd : dispatchFrames parse s (r :: rs) = dispatchFrames parse (onmessage parse s r) rs := rfl
    rw [hd, ih]
    rcases hp : parse r with _ | v <;> simp [onmessage, hp]

theorem onExit_retryCount_le (m : BackendManager) (code : Int) :
    m.retryCount ≤ (onExit m code).1.retryCount := by
  unfold onExit
  split <;> simp

theorem onExit_maxRetries (m : BackendManager) (code : Int) :
    (onExit m code).1.maxRetries = m.maxRetries := by
  unfold onExit
  split <;> rfl

theorem runExits_maxRetries (codes : List Int) :
    ∀ (m : BackendManager), (runExits m codes).maxRetries = m.maxRetries := by
  induction codes with
  | nil =>
    intro m
    rfl
  | cons c cs ih =>
    intro m
    have hd : runExits m (c :: cs) = runExits (onExit m c).1 cs := rfl
    rw [hd, ih, onExit_maxRetries]

theorem onExit_bounded (m : BackendManager) (code : Int)
    (h : m.retryCount ≤ m.maxRetries) :
    (onExit m code).1.retryCount ≤ (onExit m code).1.maxRetries := by
  unfold onExit
  split
  · rename_i hc
    simp
    omega
  · simpa using h

theorem runExits_bounded (codes : List Int) :
    ∀ (m : BackendManager), m.retryCount ≤ m.maxRetries →
      (runExits m codes).retryCount ≤ (runExits m codes).maxRetries := by
  induction codes with
  | nil =>
    intro m h
    exact h
  | cons c cs ih =>
    intro m h
    have hd : runExits m (c :: cs) = runExits (onExit m c).1 cs := rfl
    rw [hd]
    exact ih (onExit m c).1 (onExit_bounded m c h)

theorem stepSup_retryCount_le (m : BackendManager) (e : SupEvent) :
    m.retryCount ≤ (stepSup m e).retryCount := by
  cases e with
  | spawnChild pid =>
    by_cases h : m.isRunning = true <;> simp [stepSup, startSyncPhase, h]
  | healthResult ok =>
    cases ok <;> simp [stepSup]
  | childExit code =>
    exact onExit_retryCount_le m code
  | stopCall =>
    rcases hp : m.process with _ | p <;> simp [stepSup, stopState, hp]
  | retryTimer pid =>
    by_cases h : m.isRunning = true <;> simp [stepSup, retryFire, startSyncPhase, h]

theorem runSup_retryCount_le (events : List SupEvent) :
    ∀ (m : BackendManager), m.retryCount ≤ (runSup m events).retryCount := by
  induction events with
  | nil =>
    intro m
    exact Nat.le_refl _
  | cons e es ih =>
    intro m
    exact Nat.le_trans (stepSup_retryCount_le m e) (ih (stepSup m e))

/-! # Claims -/

/-- C1, counterexample: two `start()` invocations interleaved on the event
loop — the first spawns and suspends awaiting the health probe (so
`isRunning` is still false, the state the specification calls Starting); the
second invocation then runs its synchronous phase, observes `isRunning =
false`, and also spawns. Both spawn and two children are live, refuting the
claim that an invocation observing Starting no-ops or fails without
spawning. -/
theorem start_during_starting_both_spawn :
    (startSyncPhase BackendManager.init 100).2 = true ∧
    (startSyncPhase (startSyncPhase BackendManager.init 100).1 101).2 = true ∧
    (startSyncPhase (startSyncPhase BackendManager.init 100).1 101).1.liveChildren = 2 := by
  decide

/-- C1, amended: the only serialization `start()` performs is the early
return at main.js line 89 — an invocation observing `isRunning = true`
(Running) no-ops without spawning. Since `isRunning` becomes true only after
the health probe succeeds, an invocation during Starting spawns a second
child. -/
theorem start_noop_only_when_running (m : BackendManager) (pid : Nat)
    (h : m.isRunning = true) :
    startSyncPhase m pid = (m, false) := by
  simp [startSyncPhase, h]

/-- C1, witness for the amended theorem. -/
theorem start_noop_only_when_running_witness :
    startSyncPhase { BackendManager.init with isRunning := true } 100 =
      ({ BackendManager.init with isRunning := true }, false) :=
  start_noop_only_when_running { BackendManager.init with isRunning := true } 100 rfl

/-- C2, counterexample: a `start()` whose health probe succeeds at once, run
on a supervisor with `retryCount = 2`, resolves with `retryCount` still 2 —
the code (main.js lines 173-180) never resets the retry counter on probe
success, refuting the "RetryCounter is reset to 0" part of the claim. -/
theorem start_success_leaves_retryCount :
    (startResume { BackendManager.init with retryCount := 2, process := some 100 }
        (fun _ => true)).2 = true ∧
    (startResume { BackendManager.init with retryCount := 2, process := some 100 }
        (fun _ => true)).1.retryCount = 2 ∧
    ¬ (startResume { BackendManager.init with retryCount := 2, process := some 100 }
        (fun _ => true)).1.retryCount = 0 := by
  decide

/-- C2, amended: `start()` resolves if and only if the health probe observes
a 2xx response within the 30000 ms window (30 polls at 1000 ms); on success
the supervisor is marked Running with `retryCount` left unchanged (the code
never resets it); on probe timeout `start()` rejects with the state untouched
— in particular the spawned process is left running. -/
theorem start_resolution_iff_probe_success (m : BackendManager) (probe : Nat → Bool) :
    ((startResume m probe).2 = true ↔ ∃ k, k < maxPolls ∧ probe k = true) ∧
    ((startResume m probe).2 = true →
      (startResume m probe).1.isRunning = true ∧
      (startResume m probe).1.retryCount = m.retryCount ∧
      (startResume m probe).1.process = m.process) ∧
    ((startResume m probe).2 = false → (startResume m probe).1 = m) := by
  refine ⟨?_, ?_, ?_⟩
  · rw [startResume_resolved_iff]
    exact waitForBackend_isSome_iff probe
  · intro h
    unfold startResume at h ⊢
    rcases hw : waitForBackend probe with _ | j
    · rw [hw] at h
      simp at h
    · exact ⟨rfl, rfl, rfl⟩
  · intro h
    unfold startResume at h ⊢
    rcases hw : waitForBackend probe with _ | j
    · rfl
    · rw [hw] at h
      simp at h

/-- C2, witness for the amended theorem. -/
theorem start_resolution_iff_probe_success_witness :
    (startResume { BackendManager.init with retryCount := 2, process := some 100 }
        (fun _ => true)).2 = true ∧
    (startResume { BackendManager.init with retryCount := 2, process := some 100 }
        (fun _ => true)).1.retryCount = 2 := by
  have h := start_resolution_iff_probe_success
    { BackendManager.init with retryCount := 2, process := some 100 } (fun _ => true)
  have h1 : (startResume { BackendManager.init with retryCount := 2, process := some 100 }
      (fun _ => true)).2 = true := h.1.mpr ⟨0, by decide, rfl⟩
  exact ⟨h1, (h.2.1 h1).2.1⟩

/-- C3, confirmed: on an unexpected exit with nonzero code while
`retryCount < maxRetries`, exactly one `start()` is scheduled after the fixed
3000 ms delay and `retryCount` increases by exactly 1; once
`retryCount ≥ maxRetries` no retry is scheduled and the counter stays put;
the counter is bounded by `maxRetries` across any sequence of exits when it
starts within the bound. -/
theorem exit_retry_policy (m : BackendManager) (code : Int) (codes : List Int) :
    (code ≠ 0 → m.retryCount < m.maxRetries →
      (onExit m code).2 = some retryDelayMs ∧
      (onExit m code).1.retryCount = m.retryCount + 1) ∧
    (m.maxRetries ≤ m.retryCount →
      (onExit m code).2 = none ∧ (onExit m code).1.retryCount = m.retryCount) ∧
    (m.retryCount ≤ m.maxRetries →
      (onExit m code).1.retryCount ≤ m.maxRetries ∧
      (runExits m codes).retryCount ≤ m.maxRetries) := by
  refine ⟨?_, ?_, ?_⟩
  · intro hc hlt
    unfold onExit
    rw [if_pos ⟨hc, hlt⟩]
    exact ⟨rfl, rfl⟩
  · intro hge
    unfold onExit
    rw [if_neg (by omega : ¬ (code ≠ 0 ∧ m.retryCount < m.maxRetries))]
    exact ⟨rfl, rfl⟩
  · intro hle
    constructor
    · have := onExit_bounded m code hle
      rw [onExit_maxRetries] at this
      exact this
    · have := runExits_bounded codes m hle
      rw [runExits_maxRetries] at this
      exact this

/-- C3, witness: a crash with exit code 1 at `retryCount = 2`,
`maxRetries = 5` schedules exactly one retry after 3000 ms and bumps the
counter to 3; at `retryCount = 5` nothing is scheduled; a long crash sequence
never pushes the counter past 5. -/
theorem exit_retry_policy_witness :
    (onExit { BackendManager.init with retryCount := 2 } 1).2 = some retryDelayMs ∧
    (onExit { BackendManager.init with retryCount := 2 } 1).1.retryCount = 3 ∧
    (onExit { BackendManager.init with retryCount := 5 } 1).2 = none ∧
    (runExits BackendManager.init [1, 1, 1, 1, 1, 1, 1, 1]).retryCount ≤ 5 := by
  have h2 := exit_retry_policy { BackendManager.init with retryCount := 2 } 1 []
  have h5 := exit_retry_policy { BackendManager.init with retryCount := 5 } 1 []
  have h0 := exit_retry_policy BackendManager.init 1 [1, 1, 1, 1, 1, 1, 1, 1]
  refine ⟨(h2.1 (by decide) (by decide)).1, (h2.1 (by decide) (by decide)).2, ?_, ?_⟩
  · exact (h5.2.1 (by decide)).1
  · exact (h0.2.2 (by decide)).2

/-- C4, code bug: `retry()` (main.js line 226) schedules `start()` with a
bare `setTimeout` and keeps no handle, and `stop()` (lines 199-221) clears no
timer; evaluated at the failing input — a crash with exit code 1 at
`retryCount = 0 < maxRetries` schedules a retry, then `stop()` resolves — the
pending retry survives the stop and, when it fires, spawns a new child,
resurrecting the backend after an intentional stop. -/
theorem stop_leaves_pending_retry :
    (onExit (startSyncPhase BackendManager.init 100).1 1).2 = some retryDelayMs ∧
    (stopState (onExit (startSyncPhase BackendManager.init 100).1 1).1).pendingRetry = true ∧
    (retryFire (stopState (onExit (startSyncPhase BackendManager.init 100).1 1).1) 101).2 = true ∧
    (retryFire (stopState (onExit (startSyncPhase BackendManager.init 100).1 1).1) 101).1.process
      = some 101 := by
  decide

/-- C5, confirmed: `stop()` resolves immediately when no process is tracked,
and otherwise within the 5000 ms kill deadline regardless of whether the
child honors the graceful termination signal, because the deadline path
force-kills and resolves unconditionally; its state effect is idempotent. -/
theorem stop_resolves_within_deadline (m : BackendManager) (exitAt : Option Nat) :
    stopResolveMs m exitAt ≤ killDeadlineMs ∧
    (m.process = none → stopResolveMs m exitAt = 0) ∧
    (m.process ≠ none → exitAt = none → stopResolveMs m exitAt = killDeadlineMs) ∧
    stopState (stopState m) = stopState m := by
  refine ⟨?_, ?_, ?_, ?_⟩
  · unfold stopResolveMs
    rcases m.process with _ | p
    · exact Nat.zero_le _
    · rcases exitAt with _ | t
      · exact Nat.le_refl _
      · exact Nat.min_le_right t killDeadlineMs
  · intro h
    unfold stopResolveMs
    rw [h]
  · intro hp he
    unfold stopResolveMs
    rcases hm : m.process with _ | p
    · exact absurd hm hp
    · rw [he]
  · rcases m with ⟨p, ir, rc, mr, lc, pr⟩
    rcases p with _ | pid <;> rfl

/-- C5, witness: with no process tracked `stop()` resolves at time 0; with a
tracked process that never exits it resolves exactly at the 5000 ms
deadline. -/
theorem stop_resolves_within_deadline_witness :
    stopResolveMs BackendManager.init none = 0 ∧
    stopResolveMs { BackendManager.init with process := some 100 } none = killDeadlineMs := by
  refine ⟨(stop_resolves_within_deadline BackendManager.init none).2.1 rfl, ?_⟩
  exact (stop_resolves_within_deadline { BackendManager.init with process := some 100 }
    none).2.2.1 (by decide) rfl

/-- C6, counterexample: with a missing executable, `start()` on a fresh
supervisor rejects with the generic health-timeout error after the 30000 ms
probe window — not with a distinct spawn error — and the final state merely
has `isRunning = false` (the code has no Failed state). Only the
"no retry is scheduled" part of the claim holds. -/
theorem spawn_missing_rejects_timeout :
    (startSpawnMissing BackendManager.init 100).2.1
      = StartOutcome.rejected StartError.healthTimeout ∧
    ¬ (startSpawnMissing BackendManager.init 100).2.1
      = StartOutcome.rejected StartError.spawnFailure ∧
    (startSpawnMissing BackendManager.init 100).2.2 = false := by
  decide

/-- C6, amended: when the executable path does not exist, the spawn `error`
event is swallowed by `handleBackendError` (which only notifies the
renderer), no retry is scheduled, and `start()` rejects with the
health-timeout error once the 30000 ms probe window is exhausted; the
supervisor is simply left not running with its retry counter unchanged
(there is no Failed state in the code). -/
theorem spawn_missing_behavior (m : BackendManager) (pid : Nat)
    (h : m.isRunning = false) :
    (startSpawnMissing m pid).2.1 = StartOutcome.rejected StartError.healthTimeout ∧
    (startSpawnMissing m pid).2.2 = false ∧
    (startSpawnMissing m pid).1.isRunning = false ∧
    (startSpawnMissing m pid).1.retryCount = m.retryCount := by
  unfold startSpawnMissing
  rw [if_neg (by rw [h]; exact Bool.false_ne_true), waitForBackend_all_fail]
  exact ⟨rfl, rfl, h, rfl⟩

/-- C6, witness for the amended theorem. -/
theorem spawn_missing_behavior_witness :
    (startSpawnMissing BackendManager.init 100).2.1
      = StartOutcome.rejected StartError.healthTimeout ∧
    (startSpawnMissing BackendManager.init 100).1.retryCount = 0 :=
  ⟨(spawn_missing_behavior BackendManager.init 100 rfl).1,
   (spawn_missing_behavior BackendManager.init 100 rfl).2.2.2⟩

/-- C7, confirmed: delivering any sequence of raw frames to the `onmessage`
handler appends exactly the successfully parsed frames to the message log in
arrival order (no reordering, no deduplication — `filterMap` keeps order and
multiplicity), and a frame that fails to parse is dropped without touching
the `connected` flag. -/
theorem inbound_frames_fifo {Frame : Type} (parse : String → Option Frame)
    (s : ChannelHookState Frame) (raws : List String) :
    (dispatchFrames parse s raws).messages = s.messages ++ raws.filterMap parse ∧
    (dispatchFrames parse s raws).connected = s.connected :=
  ⟨dispatchFrames_messages parse raws s, dispatchFrames_connected parse raws s⟩

/-- C8, counterexample: in the composed flow the hook uses — `createWebSocket`
followed by the `useWebSocket` effect reassigning `onopen` — the open event
runs the hook handler, so even with a token available no auth frame is ever
transmitted, refuting the claim that the channel sends an initial auth
frame. -/
theorem auth_frame_not_sent_with_token :
    (fireOpen (useWebSocketSetup (createWebSocket (some "tok")))).sent = [] ∧
    ¬ (fireOpen (useWebSocketSetup (createWebSocket (some "tok")))).sent
      = [OutFrame.auth "tok"] := by
  decide

/-- C8, amended: the `onopen` handler installed by `createWebSocket` would
transmit the auth frame as the first outbound frame when a token is
available, and nothing when there is none; but `useWebSocket` replaces that
handler before the transport opens, so in the hook-driven channel no auth
frame is sent whether or not a token is available. -/
theorem open_handler_auth_behavior (t : String) (tok : Option String) :
    (fireOpen (createWebSocket (some t))).sent = [OutFrame.auth t] ∧
    (fireOpen (createWebSocket none)).sent = [] ∧
    (fireOpen (useWebSocketSetup (createWebSocket tok))).sent = [] := by
  refine ⟨rfl, rfl, ?_⟩
  rcases tok with _ | t2 <;> rfl

/-- C9, counterexample: `createSession` never consults the `creating` flag,
so a second invocation while a first call is in flight (`creating = true`,
one call issued) still issues a second session-creation call; moreover one
user flow — `handleSelectCharacter` creating a session and then the
`TrainingSession` mount effect creating another (its `sessionId` state starts
at null) — issues two calls, so one user-initiated training session yields
two session records. -/
theorem second_create_while_in_flight :
    (createSessionInvoke { creating := true, callsIssued := 1 }).callsIssued = 2 ∧
    (trainingSessionMount
      (createSessionInvoke { creating := false, callsIssued := 0 }) none).callsIssued = 2 := by
  decide

/-- C9, amended: session creation is not single-flight — every invocation of
`createSession` issues a REST call regardless of the `creating` flag, and the
select-character flow followed by the session-view mount effect issues two
session-creation calls for a single user-initiated training session. -/
theorem create_session_not_single_flight (s : SessionMgr) :
    (createSessionInvoke s).callsIssued = s.callsIssued + 1 ∧
    (createSessionInvoke s).creating = true ∧
    (trainingSessionMount (createSessionInvoke s) none).callsIssued = s.callsIssued + 2 :=
  ⟨rfl, rfl, rfl⟩

/-- C10, confirmed: no supervisor operation — spawning, health success,
child exit handling, `stop()`, or a firing retry timer — ever decreases
`retryCount`; over any event trace the counter is monotonically
nondecreasing, so the retry budget is cumulative over the whole lifetime of
the `BackendManager` instance. -/
theorem retryCount_monotone (m : BackendManager) (e : SupEvent) (events : List SupEvent) :
    m.retryCount ≤ (stepSup m e).retryCount ∧
    m.retryCount ≤ (runSup m events).retryCount :=
  ⟨stepSup_retryCount_le m e, runSup_retryCount_le events m⟩

end Yatav
